import Mathlib

/-!
Header `speech_to_text_windows_stub.h`.

A verification development for the single source file of the package
`speech_to_text_windows_stub`: the C/C++ header
`windows/include/speech_to_text_windows/speech_to_text_windows_stub.h`.

The header is preprocessor text, so it is embedded line by line
(`speech_to_text_windows_stub_h`) and given meaning by a small model of the
C preprocessor (`ppStep`, `ppInclude`): conditional groups, object-like
`#define`, `#include`, and macro replacement of text lines with rescanning.
-/

set_option autoImplicit false
set_option linter.unusedVariables false

namespace SpeechToTextWindowsStub

/-! ## Preprocessing tokens and macro tables -/

/-- A preprocessing token. Keywords such as `void` are identifiers to the
preprocessor; only identifiers are subject to macro replacement. -/
inductive Token where
  | ident (s : String)
  | punct (s : String)
  | strlit (s : String)
  | number (s : String)
deriving DecidableEq, Repr

/-- The object-like macros currently defined: name and replacement list.
The first entry for a name is the one in force. The header defines only
object-like macros; function-like macros are outside this model. -/
abbrev MacroTable := List (String × List Token)

/-- The replacement list of `n`, if `n` is currently defined. -/
def macroLookup (m : MacroTable) (n : String) : Option (List Token) :=
  List.lookup n m

/-- What `#ifdef n` and `defined(n)` test. -/
def isDefined (m : MacroTable) (n : String) : Bool :=
  (macroLookup m n).isSome

/-- The table after `#undef n`. -/
def macroUndef (m : MacroTable) (n : String) : MacroTable :=
  m.filter (fun e => e.1 != n)

/-- The table after `#define n body`: the new definition replaces any
earlier one, which is what compilers do on a redefinition (with a warning
when the replacement lists differ). -/
def macroDefine (m : MacroTable) (n : String) (body : List Token) : MacroTable :=
  (n, body) :: macroUndef m n

/-- Macro replacement of one token. An identifier that names a macro is
replaced by its replacement list, which is rescanned with that name
disabled (`hide`). `fuel` bounds the nesting depth of replacements. -/
def expandTok (m : MacroTable) : Nat → List String → Token → List Token
  | 0, _, t => [t]
  | fuel + 1, hide, Token.ident n =>
    if hide.contains n then [Token.ident n]
    else
      match macroLookup m n with
      | none => [Token.ident n]
      | some body => body.flatMap (expandTok m fuel (n :: hide))
  | _ + 1, _, t => [t]

/-- Macro replacement of a text line. A chain of nested replacements uses
pairwise different macro names, so its depth is at most `m.length`. -/
def expand (m : MacroTable) (toks : List Token) : List Token :=
  toks.flatMap (expandTok m (m.length + 1) [])

/-! ## Source lines and their processing -/

/-- One logical line of a source file, as the preprocessor classifies it. -/
inductive Line where
  /-- Directive `#ifndef NAME`. -/
  | ppIfndef (name : String)
  /-- Directive `#ifdef NAME`. -/
  | ppIfdef (name : String)
  /-- Directive `#if defined(NAME)`. -/
  | ppIfDefined (name : String)
  /-- Directive `#else`. -/
  | ppElse
  /-- Directive `#endif`. -/
  | ppEndif
  /-- Directive `#define NAME replacement-list` (object-like). -/
  | ppDefine (name : String) (body : List Token)
  /-- Directive `#include <path>`. -/
  | ppIncludeSys (path : String)
  /-- A line of ordinary text, as preprocessing tokens. -/
  | text (toks : List Token)
  /-- An empty line. -/
  | blank
deriving DecidableEq, Repr

/-- What processing an included file contributes to the translation unit:
the macro table it leaves behind and the tokens it emits. -/
structure IncludeEffect where
  macros : MacroTable
  out : List Token
deriving DecidableEq, Repr

/-- The files reachable through `#include <...>` are not part of this
package; their effect is a parameter: path and macro table at the point of
inclusion to what the file contributes. -/
abbrev IncludeResolver := String → MacroTable → IncludeEffect

/-- One open conditional group (`#if` ... `#endif`). -/
structure CondFrame where
  /-- Whether the enclosing group is being processed. -/
  outer : Bool
  /-- Whether a branch of this conditional has been selected already. -/
  taken : Bool
  /-- Whether the current branch is being processed. -/
  live : Bool
  /-- Whether `#else` was met already. -/
  sawElse : Bool
deriving DecidableEq, Repr

/-- Ways a file can be malformed for the preprocessor. -/
inductive PPError where
  | elseWithoutIf
  | elseAfterElse
  | endifWithoutIf
  | unterminatedConditional
deriving DecidableEq, Repr

/-- The preprocessor state while a file is processed. -/
structure PPState where
  macros : MacroTable
  /-- Tokens emitted to the translation unit so far, in order. -/
  out : List Token
  /-- The tokens among `out` that come from text lines of this file itself,
  not from a file it includes. -/
  own : List Token
  /-- The `#define` directives of this file executed so far, in order. -/
  defs : List (String × List Token)
  /-- Open conditional groups, innermost first. -/
  conds : List CondFrame
deriving DecidableEq, Repr

/-- Whether the current line lies in a group that is being processed. -/
def PPState.active (s : PPState) : Bool :=
  match s.conds with
  | [] => true
  | f :: _ => f.live

/-- Opens a conditional group whose controlling condition evaluated to `c`. -/
def PPState.openCond (s : PPState) (c : Bool) : PPState :=
  let a := s.active
  { s with conds := { outer := a, taken := a && c, live := a && c, sawElse := false } :: s.conds }

/-- Processes one line. -/
def ppStep (inc : IncludeResolver) (s : PPState) : Line → Except PPError PPState
  | Line.ppIfndef n => Except.ok (s.openCond (!isDefined s.macros n))
  | Line.ppIfdef n => Except.ok (s.openCond (isDefined s.macros n))
  | Line.ppIfDefined n => Except.ok (s.openCond (isDefined s.macros n))
  | Line.ppElse =>
    match s.conds with
    | [] => Except.error PPError.elseWithoutIf
    | f :: rest =>
      if f.sawElse then Except.error PPError.elseAfterElse
      else Except.ok { s with conds :=
        { outer := f.outer, taken := true, live := f.outer && !f.taken, sawElse := true } :: rest }
  | Line.ppEndif =>
    match s.conds with
    | [] => Except.error PPError.endifWithoutIf
    | _ :: rest => Except.ok { s with conds := rest }
  | Line.ppDefine n body =>
    if s.active then
      Except.ok { s with macros := macroDefine s.macros n body, defs := s.defs ++ [(n, body)] }
    else Except.ok s
  | Line.ppIncludeSys path =>
    if s.active then
      let e := inc path s.macros
      Except.ok { s with macros := e.macros, out := s.out ++ e.out }
    else Except.ok s
  | Line.text toks =>
    if s.active then
      Except.ok { s with out := s.out ++ expand s.macros toks,
                         own := s.own ++ expand s.macros toks }
    else Except.ok s
  | Line.blank => Except.ok s

/-- Processes the lines of a file in order. -/
def ppLines (inc : IncludeResolver) : PPState → List Line → Except PPError PPState
  | s, [] => Except.ok s
  | s, l :: ls =>
    match ppStep inc s l with
    | Except.error e => Except.error e
    | Except.ok s1 => ppLines inc s1 ls

/-- What including a file leaves behind. -/
structure PPResult where
  macros : MacroTable
  out : List Token
  own : List Token
  defs : List (String × List Token)
deriving DecidableEq, Repr

/-- Includes a file into a translation unit whose macro table is `m`:
conditional groups must be closed within the file. -/
def ppInclude (inc : IncludeResolver) (file : List Line) (m : MacroTable) :
    Except PPError PPResult :=
  match ppLines inc { macros := m, out := [], own := [], defs := [], conds := [] } file with
  | Except.error e => Except.error e
  | Except.ok s =>
    match s.conds with
    | [] => Except.ok { macros := s.macros, out := s.out, own := s.own, defs := s.defs }
    | _ :: _ => Except.error PPError.unterminatedConditional

/-! ## The header -/

/-- The include guard macro of the header. -/
def GUARD : String := "FLUTTER_PLUGIN_SPEECH_TO_TEXT_WINDOWS_STUB_H_"

/-- The build-time flag set by the module that implements the plugin. -/
def FLUTTER_PLUGIN_IMPL : String := "FLUTTER_PLUGIN_IMPL"

/-- The visibility macro the header defines. -/
def FLUTTER_PLUGIN_EXPORT : String := "FLUTTER_PLUGIN_EXPORT"

/-- The macro every C++ translation unit predefines. -/
def CPLUSPLUS : String := "__cplusplus"

/-- Replacement list `__declspec(dllexport)` (header line 7). -/
def dllexportAttr : List Token :=
  [Token.ident "__declspec", Token.punct "(", Token.ident "dllexport", Token.punct ")"]

/-- Replacement list `__declspec(dllimport)` (header line 9). -/
def dllimportAttr : List Token :=
  [Token.ident "__declspec", Token.punct "(", Token.ident "dllimport", Token.punct ")"]

/-- The file `speech_to_text_windows_stub.h`, line for line (23 lines). -/
def speech_to_text_windows_stub_h : List Line :=
  [ Line.ppIfndef "FLUTTER_PLUGIN_SPEECH_TO_TEXT_WINDOWS_STUB_H_",
    Line.ppDefine "FLUTTER_PLUGIN_SPEECH_TO_TEXT_WINDOWS_STUB_H_" [],
    Line.blank,
    Line.ppIncludeSys "flutter/plugin_registrar_windows.h",
    Line.blank,
    Line.ppIfdef "FLUTTER_PLUGIN_IMPL",
    Line.ppDefine "FLUTTER_PLUGIN_EXPORT"
      [Token.ident "__declspec", Token.punct "(", Token.ident "dllexport", Token.punct ")"],
    Line.ppElse,
    Line.ppDefine "FLUTTER_PLUGIN_EXPORT"
      [Token.ident "__declspec", Token.punct "(", Token.ident "dllimport", Token.punct ")"],
    Line.ppEndif,
    Line.blank,
    Line.ppIfDefined "__cplusplus",
    Line.text [Token.ident "extern", Token.strlit "C", Token.punct "\x7b"],
    Line.ppEndif,
    Line.blank,
    Line.text [Token.ident "FLUTTER_PLUGIN_EXPORT", Token.ident "void",
      Token.ident "SpeechToTextWindowsStubRegisterWithRegistrar", Token.punct "("],
    Line.text [Token.ident "FlutterDesktopPluginRegistrarRef", Token.ident "registrar",
      Token.punct ")", Token.punct ";"],
    Line.blank,
    Line.ppIfDefined "__cplusplus",
    Line.text [Token.punct "\x7d"],
    Line.ppEndif,
    Line.blank,
    Line.ppEndif ]

/-- Path of the one file the header includes (line 4). -/
def registrarHeaderPath : String := "flutter/plugin_registrar_windows.h"

/-- The attribute `FLUTTER_PLUGIN_EXPORT` is defined to when
`FLUTTER_PLUGIN_IMPL` is (`true`, line 7) or is not (`false`, line 9)
defined. -/
def visibilityAttr (impl : Bool) : List Token :=
  if impl then dllexportAttr else dllimportAttr

/-- Identifiers of the two visibility attributes. -/
def attrIdents : List String := ["__declspec", "dllexport", "dllimport"]

/-- Name of the function the header declares (line 16). -/
def functionName : String := "SpeechToTextWindowsStubRegisterWithRegistrar"

/-- Tokens of the declaration (lines 16 and 17) after its first one, the
visibility macro. -/
def declarationTail : List Token :=
  [Token.ident "void", Token.ident "SpeechToTextWindowsStubRegisterWithRegistrar",
    Token.punct "(", Token.ident "FlutterDesktopPluginRegistrarRef", Token.ident "registrar",
    Token.punct ")", Token.punct ";"]

/-- Identifiers of the header's text lines other than the visibility macro. -/
def textIdents : List String :=
  ["extern", "__declspec", "dllexport", "dllimport", "void",
    "SpeechToTextWindowsStubRegisterWithRegistrar", "FlutterDesktopPluginRegistrarRef",
    "registrar"]

/-- Tokens of line 13, which opens the linkage block. -/
def linkageOpen : List Token :=
  [Token.ident "extern", Token.strlit "C", Token.punct "\x7b"]

/-- Tokens of line 20, which closes the linkage block. -/
def linkageClose : List Token := [Token.punct "\x7d"]

/-- The included file neither defines nor undefines the macro `n`. -/
def IncludeKeeps (inc : IncludeResolver) (n : String) : Prop :=
  ∀ (path : String) (m : MacroTable), macroLookup (inc path m).macros n = macroLookup m n

/-- What line 4, the `#include`, contributes when it is reached: the
effect of the included file on the table lines 1 and 2 leave. -/
def afterIncludeLine (inc : IncludeResolver) (m : MacroTable) : IncludeEffect :=
  inc registrarHeaderPath (macroDefine m GUARD [])

/-- A change of `FLUTTER_PLUGIN_IMPL` between two inclusions of the header:
`some body` is `#define FLUTTER_PLUGIN_IMPL body`, `none` is
`#undef FLUTTER_PLUGIN_IMPL`. -/
def editImpl (m : MacroTable) : Option (List Token) → MacroTable
  | some body => macroDefine m FLUTTER_PLUGIN_IMPL body
  | none => macroUndef m FLUTTER_PLUGIN_IMPL

/-- Number of macro names of `m` that `hide` does not disable. -/
def enabledCount (m : MacroTable) (hide : List String) : Nat :=
  ((m.map Prod.fst).filter (fun k => !hide.contains k)).length

/-! ## Reading declarations off the emitted tokens -/

/-- Language linkage of a declared function: with C linkage the symbol is
the function's plain name, with C++ linkage it is decorated. -/
inductive Linkage where
  | c
  | cxx
deriving DecidableEq, Repr

/-- The function declarators of a token stream (an identifier directly
followed by an opening parenthesis, the attribute keyword `__declspec`
apart), each with its language linkage. In a C translation unit every
function has C linkage; in a C++ one (`cxx`) a function has C linkage
exactly when it stands inside a linkage block, whose nesting `depth`
counts. -/
def declaredFunctions (cxx : Bool) : Nat → List Token → List (String × Linkage)
  | depth, Token.ident "extern" :: Token.strlit "C" :: Token.punct "\x7b" :: rest =>
    declaredFunctions cxx (depth + 1) rest
  | depth, Token.punct "\x7d" :: rest => declaredFunctions cxx (depth - 1) rest
  | depth, Token.ident "__declspec" :: Token.punct "(" :: rest =>
    declaredFunctions cxx depth rest
  | depth, Token.ident n :: Token.punct "(" :: rest =>
    (n, if cxx && depth == 0 then Linkage.cxx else Linkage.c) ::
      declaredFunctions cxx depth rest
  | depth, _ :: rest => declaredFunctions cxx depth rest
  | _, [] => []

/-- Brace nesting after a token stream that starts at nesting `depth`;
`none` when a closing brace has no opening one. -/
def braceDepth : Nat → List Token → Option Nat
  | depth, [] => some depth
  | depth, Token.punct p :: rest =>
    if p = "\x7b" then braceDepth (depth + 1) rest
    else if p = "\x7d" then
      match depth with
      | 0 => none
      | d + 1 => braceDepth d rest
    else braceDepth depth rest
  | depth, _ :: rest => braceDepth depth rest

/-! ## The host side of the registration call -/

/-- The opaque handle type `FlutterDesktopPluginRegistrarRef` of the
declaration (line 17), a pointer: modelled by its address, 0 being null. -/
abbrev FlutterDesktopPluginRegistrarRef := Nat

/-- What the host keeps behind a registrar handle: what plugins have
registered through it. -/
structure RegistrarObject where
  channels : List String
  handlers : List (String × Nat)
  callbacks : List Nat
deriving DecidableEq, Repr

/-- The state of the host runtime a plugin can observe or change. -/
structure HostState where
  /-- The live registrar objects, by address. -/
  registrars : List (Nat × RegistrarObject)
  /-- Registrar handles plugin code has kept beyond a registration call. -/
  retained : List Nat
deriving DecidableEq, Repr

/-- An action of plugin code on the host that the host can observe. -/
inductive Effect where
  | readRegistrar (registrar : Nat)
  | writeRegistrar (registrar : Nat)
  | retainRegistrar (registrar : Nat)
  | registerChannel (registrar : Nat) (channelName : String)
  | setHandler (registrar : Nat) (channelName : String) (handler : Nat)
  | registerCallback (registrar : Nat) (callback : Nat)
deriving DecidableEq, Repr

/-- Ways a call across the library boundary can end other than by
returning. -/
inductive CallFailure where
  | exception
  | abort
deriving DecidableEq, Repr

/-- A call that returned: the value (the function returns `void`), the
effects it had, in order, and the host state it leaves. -/
structure CallOutcome where
  ret : Unit
  effects : List Effect
  host : HostState
deriving DecidableEq, Repr

/-- A handle is valid in a host state when it is not null and a live
registrar object stands behind it. -/
def validRegistrar (host : HostState) (registrar : FlutterDesktopPluginRegistrarRef) : Prop :=
  registrar ≠ 0 ∧ (List.lookup registrar host.registrars).isSome = true

/-- The host state in which the registrar object behind `registrar` is
`obj`. -/
def HostState.withRegistrar (host : HostState) (registrar : Nat) (obj : RegistrarObject) :
    HostState :=
  { host with registrars :=
      (registrar, obj) :: host.registrars.filter (fun e => e.1 != registrar) }

/-- Modelled from the spec: the body of
`SpeechToTextWindowsStubRegisterWithRegistrar`. The header only declares
the function (lines 16 and 17); the file that defines it is not among the
sources. The spec, section 4.1: "no return value; no observable side
effects (stub implementation performs no registration of channels,
handlers, or callbacks)", and "the operation cannot fail by design; it is
a deliberate no-op"; section 3: "the stub does not read or mutate it, does
not store it". -/
def SpeechToTextWindowsStubRegisterWithRegistrar
    (registrar : FlutterDesktopPluginRegistrarRef) (host : HostState) :
    Except CallFailure CallOutcome :=
  Except.ok { ret := (), effects := [], host := host }

/-- Two calls of the registration function in succession: the second runs
in the state the first one left; the outcomes of both are returned. -/
def registerTwice (registrar : FlutterDesktopPluginRegistrarRef) (host : HostState) :
    Except CallFailure (CallOutcome × CallOutcome) :=
  match SpeechToTextWindowsStubRegisterWithRegistrar registrar host with
  | Except.error e => Except.error e
  | Except.ok first =>
    match SpeechToTextWindowsStubRegisterWithRegistrar registrar first.host with
    | Except.error e => Except.error e
    | Except.ok second => Except.ok (first, second)

/-! ## The properties stated of the header -/

/-- In build configuration `cfg` the header gives its declaration the
visibility that `FLUTTER_PLUGIN_IMPL` selects: the header is processed
without error; afterwards `FLUTTER_PLUGIN_EXPORT` is defined as
`__declspec(dllexport)` exactly when `FLUTTER_PLUGIN_IMPL` is defined in
`cfg` and as `__declspec(dllimport)` exactly when it is not; the header
executes one `#define FLUTTER_PLUGIN_EXPORT`; the macro expands to that
attribute, and the emitted declaration starts with it. -/
def ExportFollowsImplFlag (inc : IncludeResolver) (cfg : MacroTable) : Prop :=
  ∃ r : PPResult,
    ppInclude inc speech_to_text_windows_stub_h cfg = Except.ok r ∧
    (macroLookup r.macros FLUTTER_PLUGIN_EXPORT = some dllexportAttr
      ↔ isDefined cfg FLUTTER_PLUGIN_IMPL = true) ∧
    (macroLookup r.macros FLUTTER_PLUGIN_EXPORT = some dllimportAttr
      ↔ isDefined cfg FLUTTER_PLUGIN_IMPL = false) ∧
    (r.defs.filter (fun d => d.1 == FLUTTER_PLUGIN_EXPORT)).length = 1 ∧
    expand r.macros [Token.ident FLUTTER_PLUGIN_EXPORT]
      = visibilityAttr (isDefined cfg FLUTTER_PLUGIN_IMPL) ∧
    r.own = (if isDefined r.macros CPLUSPLUS then expand r.macros linkageOpen else [])
      ++ visibilityAttr (isDefined cfg FLUTTER_PLUGIN_IMPL)
      ++ expand r.macros declarationTail
      ++ (if isDefined r.macros CPLUSPLUS then expand r.macros linkageClose else [])

/-- In build configuration `cfg` the header declares its one function with
C linkage: the header is processed without error; compiled as C++ its own
tokens are the declaration inside one linkage block; compiled as C they
hold neither `extern` nor the string `"C"`; the braces balance; and the
only function declared is `SpeechToTextWindowsStubRegisterWithRegistrar`,
with C linkage. -/
def DeclaredWithCLinkage (inc : IncludeResolver) (cfg : MacroTable) : Prop :=
  ∃ r : PPResult,
    ppInclude inc speech_to_text_windows_stub_h cfg = Except.ok r ∧
    (isDefined cfg CPLUSPLUS = true →
      ∃ impl : Bool,
        r.own = linkageOpen ++ (visibilityAttr impl ++ declarationTail) ++ linkageClose) ∧
    (isDefined cfg CPLUSPLUS = false →
      Token.ident "extern" ∉ r.own ∧ Token.strlit "C" ∉ r.own) ∧
    braceDepth 0 r.own = some 0 ∧
    declaredFunctions (isDefined cfg CPLUSPLUS) 0 r.own = [(functionName, Linkage.c)]

/-! ## Concrete inputs -/

/-- A stand-in for `flutter/plugin_registrar_windows.h`: it declares the
handle type and defines the export macro of the Flutter library. -/
def registrarHeaderStandIn : IncludeResolver := fun _ m =>
  { macros := macroDefine m "FLUTTER_EXPORT" dllimportAttr,
    out := [Token.ident "typedef", Token.ident "struct",
      Token.ident "FlutterDesktopPluginRegistrar", Token.punct "*",
      Token.ident "FlutterDesktopPluginRegistrarRef", Token.punct ";"] }

/-- The plugin module itself, compiled as C++ with `FLUTTER_PLUGIN_IMPL`. -/
def producerConfig : MacroTable :=
  [("FLUTTER_PLUGIN_IMPL", []), ("__cplusplus", [Token.number "201703L"])]

/-- A consumer of the plugin, compiled as C++ without the flag. -/
def consumerConfig : MacroTable :=
  [("__cplusplus", [Token.number "201703L"])]

/-- A consumer that has included the header before: the guard is defined. -/
def reincludedConfig : MacroTable :=
  [("FLUTTER_PLUGIN_SPEECH_TO_TEXT_WINDOWS_STUB_H_", []),
    ("__cplusplus", [Token.number "201703L"])]

/-- A producer configuration in which `dllexport` is itself a macro. -/
def aliasedAttrConfig : MacroTable :=
  [("dllexport", [Token.ident "dllimport"]), ("FLUTTER_PLUGIN_IMPL", [])]

/-- A configuration in which the function's name is itself a macro. -/
def renamedConfig : MacroTable :=
  [("SpeechToTextWindowsStubRegisterWithRegistrar", [Token.ident "StubRegister"])]

/-- A host with one live registrar at address 4096. -/
def sampleHost : HostState :=
  { registrars := [(4096, { channels := ["speech_to_text"], handlers := [], callbacks := [] })],
    retained := [] }

/-! ## Macro tables -/

theorem macroLookup_undef_self (m : MacroTable) (n : String) :
    macroLookup (macroUndef m n) n = none := by
  induction m with
  | nil => rfl
  | cons e m ih =>
    obtain ⟨k, b⟩ := e
    by_cases h : k = n
    · subst h
      simpa [macroUndef, List.filter_cons, macroLookup] using ih
    · have hne : (n == k) = false := by simpa using (fun h2 : n = k => h h2.symm)
      simpa [macroUndef, List.filter_cons, macroLookup, h, List.lookup, hne] using ih

theorem macroLookup_undef_ne (m : MacroTable) (n k : String) (h : k ≠ n) :
    macroLookup (macroUndef m n) k = macroLookup m k := by
  induction m with
  | nil => rfl
  | cons e m ih =>
    obtain ⟨j, b⟩ := e
    by_cases hj : j = n
    · subst hj
      have hne : (k == j) = false := by simpa using h
      simpa [macroUndef, List.filter_cons, macroLookup, List.lookup, hne] using ih
    · by_cases hk : k = j
      · subst hk
        simp [macroUndef, List.filter_cons, macroLookup, List.lookup, hj]
      · have hne : (k == j) = false := by simpa using hk
        simpa [macroUndef, List.filter_cons, macroLookup, List.lookup, hne, hj] using ih

theorem macroLookup_define_self (m : MacroTable) (n : String) (b : List Token) :
    macroLookup (macroDefine m n b) n = some b := by
  simp [macroDefine, macroLookup, List.lookup]

theorem macroLookup_define_ne (m : MacroTable) (n k : String) (b : List Token) (h : k ≠ n) :
    macroLookup (macroDefine m n b) k = macroLookup m k := by
  have hne : (k == n) = false := by simpa using h
  have := macroLookup_undef_ne m n k h
  simpa [macroDefine, macroLookup, List.lookup, hne] using this

theorem isDefined_define_self (m : MacroTable) (n : String) (b : List Token) :
    isDefined (macroDefine m n b) n = true := by
  simp [isDefined, macroLookup_define_self]

theorem isDefined_define_ne (m : MacroTable) (n k : String) (b : List Token) (h : k ≠ n) :
    isDefined (macroDefine m n b) k = isDefined m k := by
  simp [isDefined, macroLookup_define_ne m n k b h]

theorem isDefined_undef_ne (m : MacroTable) (n k : String) (h : k ≠ n) :
    isDefined (macroUndef m n) k = isDefined m k := by
  simp [isDefined, macroLookup_undef_ne m n k h]

/-! ## Macro replacement -/

/-- Identifier `n` is not replaced when it is not a macro. -/
theorem expandTok_ident_undefined (m : MacroTable) (fuel : Nat) (hide : List String)
    (n : String) (h : macroLookup m n = none) :
    expandTok m fuel hide (Token.ident n) = [Token.ident n] := by
  cases fuel with
  | zero => rfl
  | succ f =>
    simp only [expandTok, h]
    split <;> rfl

theorem expandTok_punct (m : MacroTable) (fuel : Nat) (hide : List String) (p : String) :
    expandTok m fuel hide (Token.punct p) = [Token.punct p] := by
  cases fuel <;> rfl

theorem expandTok_strlit (m : MacroTable) (fuel : Nat) (hide : List String) (p : String) :
    expandTok m fuel hide (Token.strlit p) = [Token.strlit p] := by
  cases fuel <;> rfl

theorem expand_cons (m : MacroTable) (t : Token) (ts : List Token) :
    expand m (t :: ts) = expandTok m (m.length + 1) [] t ++ expand m ts := by
  simp [expand, List.flatMap_cons]

theorem expand_nil (m : MacroTable) : expand m [] = [] := rfl

theorem length_pos_of_lookup (m : MacroTable) (n : String) (b : List Token)
    (h : macroLookup m n = some b) : ∃ k, m.length = k + 1 := by
  cases m with
  | nil => simp [macroLookup, List.lookup] at h
  | cons e m => exact ⟨m.length, rfl⟩

/-- A macro whose replacement list holds no macro name expands to that list. -/
theorem expand_flat_definition (m : MacroTable) (n : String) (b : List Token)
    (h : macroLookup m n = some b)
    (hb : ∀ t ∈ b, ∀ k, t = Token.ident k → macroLookup m k = none) :
    expand m [Token.ident n] = b := by
  obtain ⟨k, hk⟩ := length_pos_of_lookup m n b h
  have key : ∀ (c : List Token), (∀ t ∈ c, ∀ k, t = Token.ident k → macroLookup m k = none) →
      c.flatMap (expandTok m (k + 1) [n]) = c := by
    intro c
    induction c with
    | nil => intro _; rfl
    | cons t c ih =>
      intro hc
      have htail := ih (fun t ht => hc t (List.mem_cons_of_mem _ ht))
      have hhead : expandTok m (k + 1) [n] t = [t] := by
        cases t with
        | ident j => exact expandTok_ident_undefined m _ _ j (hc _ (List.mem_cons_self _ _) j rfl)
        | punct p => rfl
        | strlit p => rfl
        | number p => rfl
      simp [List.flatMap_cons, hhead, htail]
  simp only [expand, hk, List.flatMap_cons, List.flatMap_nil, List.append_nil]
  simp only [expandTok, h]
  simpa using key b hb

theorem mem_names_of_lookup (m : MacroTable) (n : String) (b : List Token)
    (h : macroLookup m n = some b) : n ∈ m.map Prod.fst := by
  induction m with
  | nil => simp [macroLookup, List.lookup] at h
  | cons e m ih =>
    obtain ⟨k, c⟩ := e
    by_cases hk : n = k
    · simp [hk]
    · have hne : (n == k) = false := by simpa using hk
      have h2 : macroLookup m n = some b := by
        simpa [macroLookup, List.lookup, hne] using h
      simp [ih h2]

theorem enabledCount_hide_lt (m : MacroTable) (hide : List String) (n : String)
    (b : List Token) (h : macroLookup m n = some b) (hn : hide.contains n = false) :
    enabledCount m (n :: hide) < enabledCount m hide := by
  have hmem := mem_names_of_lookup m n b h
  have hsplit : (m.map Prod.fst).filter (fun k => !(n :: hide).contains k)
      = ((m.map Prod.fst).filter (fun k => !hide.contains k)).filter (fun k => k != n) := by
    rw [List.filter_filter]
    apply List.filter_congr
    intro x _
    by_cases hx : x = n <;> simp [hx, Bool.and_comm]
  unfold enabledCount
  rw [hsplit]
  apply List.length_filter_lt_length_iff_exists.mpr
  refine ⟨n, ?_, by simp⟩
  simp [List.mem_filter, hmem] 
  simpa using hn

/-- One more unit of fuel changes nothing once the fuel exceeds the number
of macro names still enabled. -/
theorem expandTok_fuel_succ (m : MacroTable) :
    ∀ (fuel : Nat) (hide : List String) (t : Token),
      enabledCount m hide + 1 ≤ fuel →
      expandTok m (fuel + 1) hide t = expandTok m fuel hide t := by
  intro fuel
  induction fuel with
  | zero => intro hide t h; omega
  | succ f ih =>
    intro hide t h
    cases t with
    | punct p => rfl
    | strlit p => rfl
    | number p => rfl
    | ident n =>
      simp only [expandTok]
      cases hh : hide.contains n with
      | true => simp
      | false =>
        cases hl : macroLookup m n with
        | none => simp
        | some body =>
          have hlt := enabledCount_hide_lt m hide n body hl hh
          have hfun : expandTok m (f + 1) (n :: hide) = expandTok m f (n :: hide) := by
            funext t2
            exact ih (n :: hide) t2 (by omega)
          simp [hfun]

theorem enabledCount_nil (m : MacroTable) : enabledCount m [] = m.length := by
  simp [enabledCount]

/-- The fuel `expand` gives is enough: any larger amount yields the same
replacement, so the depth bound never cuts a replacement short. -/
theorem expand_fuel_adequate (m : MacroTable) (extra : Nat) (toks : List Token) :
    toks.flatMap (expandTok m (m.length + 1 + extra) []) = expand m toks := by
  have h : ∀ j, expandTok m (m.length + 1 + j) [] = expandTok m (m.length + 1) [] := by
    intro j
    induction j with
    | zero => rfl
    | succ j ih =>
      funext t
      have := expandTok_fuel_succ m (m.length + 1 + j) [] t (by rw [enabledCount_nil]; omega)
      rw [← ih, ← this]
      rfl
  rw [h extra]
  rfl

/-! ## Processing the header -/

theorem expand_no_macros (m : MacroTable) (c : List Token)
    (hc : ∀ t ∈ c, ∀ k, t = Token.ident k → macroLookup m k = none) :
    expand m c = c := by
  induction c with
  | nil => rfl
  | cons t c ih =>
    have htail := ih (fun t ht => hc t (List.mem_cons_of_mem _ ht))
    have hhead : expandTok m (m.length + 1) [] t = [t] := by
      cases t with
      | ident j => exact expandTok_ident_undefined m _ _ j (hc _ (List.mem_cons_self _ _) j rfl)
      | punct p => rfl
      | strlit p => rfl
      | number p => rfl
    rw [expand_cons, hhead, htail]
    rfl

/-- With the include guard defined, every line of the header is skipped. -/
theorem header_skipped (inc : IncludeResolver) (m : MacroTable)
    (h : isDefined m GUARD = true) :
    ppInclude inc speech_to_text_windows_stub_h m
      = Except.ok { macros := m, out := [], own := [], defs := [] } := by
  have h1 : isDefined m "FLUTTER_PLUGIN_SPEECH_TO_TEXT_WINDOWS_STUB_H_" = true := h
  simp [ppInclude, speech_to_text_windows_stub_h, ppLines, ppStep, PPState.openCond,
    PPState.active, h1]

/-- With the include guard not defined, the body of the header is processed. -/
theorem header_processed (inc : IncludeResolver) (m : MacroTable)
    (h : isDefined m GUARD = false) :
    ppInclude inc speech_to_text_windows_stub_h m
      = Except.ok
        { macros := macroDefine (afterIncludeLine inc m).macros FLUTTER_PLUGIN_EXPORT
            (visibilityAttr (isDefined (afterIncludeLine inc m).macros FLUTTER_PLUGIN_IMPL)),
          out := (afterIncludeLine inc m).out
            ++ (if isDefined (afterIncludeLine inc m).macros CPLUSPLUS then
                  expand (macroDefine (afterIncludeLine inc m).macros FLUTTER_PLUGIN_EXPORT
                    (visibilityAttr (isDefined (afterIncludeLine inc m).macros FLUTTER_PLUGIN_IMPL)))
                    linkageOpen
                else [])
            ++ expand (macroDefine (afterIncludeLine inc m).macros FLUTTER_PLUGIN_EXPORT
                    (visibilityAttr (isDefined (afterIncludeLine inc m).macros FLUTTER_PLUGIN_IMPL)))
                 (Token.ident FLUTTER_PLUGIN_EXPORT :: declarationTail)
            ++ (if isDefined (afterIncludeLine inc m).macros CPLUSPLUS then
                  expand (macroDefine (afterIncludeLine inc m).macros FLUTTER_PLUGIN_EXPORT
                    (visibilityAttr (isDefined (afterIncludeLine inc m).macros FLUTTER_PLUGIN_IMPL)))
                    linkageClose
                else []),
          own := (if isDefined (afterIncludeLine inc m).macros CPLUSPLUS then
                  expand (macroDefine (afterIncludeLine inc m).macros FLUTTER_PLUGIN_EXPORT
                    (visibilityAttr (isDefined (afterIncludeLine inc m).macros FLUTTER_PLUGIN_IMPL)))
                    linkageOpen
                else [])
            ++ expand (macroDefine (afterIncludeLine inc m).macros FLUTTER_PLUGIN_EXPORT
                    (visibilityAttr (isDefined (afterIncludeLine inc m).macros FLUTTER_PLUGIN_IMPL)))
                 (Token.ident FLUTTER_PLUGIN_EXPORT :: declarationTail)
            ++ (if isDefined (afterIncludeLine inc m).macros CPLUSPLUS then
                  expand (macroDefine (afterIncludeLine inc m).macros FLUTTER_PLUGIN_EXPORT
                    (visibilityAttr (isDefined (afterIncludeLine inc m).macros FLUTTER_PLUGIN_IMPL)))
                    linkageClose
                else []),
          defs := [(GUARD, []), (FLUTTER_PLUGIN_EXPORT,
            visibilityAttr (isDefined (afterIncludeLine inc m).macros FLUTTER_PLUGIN_IMPL))] } := by
  have h1 : isDefined m "FLUTTER_PLUGIN_SPEECH_TO_TEXT_WINDOWS_STUB_H_" = false := h
  have hcx : ∀ (t : MacroTable) (b : List Token),
      isDefined (macroDefine t "FLUTTER_PLUGIN_EXPORT" b) "__cplusplus" = isDefined t "__cplusplus" :=
    fun t b => isDefined_define_ne t _ _ b (by decide)
  cases himpl : isDefined (afterIncludeLine inc m).macros FLUTTER_PLUGIN_IMPL <;>
  cases hcxx : isDefined (afterIncludeLine inc m).macros CPLUSPLUS <;>
  simp only [afterIncludeLine, GUARD, FLUTTER_PLUGIN_IMPL, FLUTTER_PLUGIN_EXPORT, CPLUSPLUS, registrarHeaderPath] at himpl hcxx <;>
  simp [ppInclude, speech_to_text_windows_stub_h, ppLines, ppStep, PPState.openCond,
    PPState.active, h1, himpl, hcxx, hcx, afterIncludeLine, GUARD, FLUTTER_PLUGIN_IMPL, FLUTTER_PLUGIN_EXPORT, CPLUSPLUS, registrarHeaderPath,
    visibilityAttr, dllexportAttr, dllimportAttr, linkageOpen, linkageClose, declarationTail, expand, List.flatMap_cons]

/-! ## The stand-in for the included file -/

theorem registrarHeaderStandIn_keeps (n : String) (h : n ≠ "FLUTTER_EXPORT") :
    IncludeKeeps registrarHeaderStandIn n := by
  intro path m
  exact macroLookup_define_ne m "FLUTTER_EXPORT" n dllimportAttr h

/-! ## The registration call -/

/-- C1: for every valid registrar handle and every host state, the
registration call returns no value and has no observable side effect: it
has no effect on the host at all (nothing is read, written, retained or
registered), the host state after the call is the state before it, and the
outcome does not depend on the registrar object behind the handle. -/
theorem register_leaves_host_unchanged (registrar : FlutterDesktopPluginRegistrarRef)
    (host : HostState) (hvalid : validRegistrar host registrar) :
    (∃ outcome : CallOutcome,
      SpeechToTextWindowsStubRegisterWithRegistrar registrar host = Except.ok outcome ∧
      outcome.ret = () ∧ outcome.effects = [] ∧ outcome.host = host ∧
      List.lookup registrar outcome.host.registrars = List.lookup registrar host.registrars ∧
      outcome.host.retained = host.retained) ∧
    (∀ obj : RegistrarObject, ∃ outcome : CallOutcome,
      SpeechToTextWindowsStubRegisterWithRegistrar registrar (host.withRegistrar registrar obj)
        = Except.ok outcome ∧
      outcome.effects = [] ∧ outcome.host = host.withRegistrar registrar obj) := by
  exact ⟨⟨_, rfl, rfl, rfl, rfl, rfl, rfl⟩, fun obj => ⟨_, rfl, rfl, rfl⟩⟩

theorem register_leaves_host_unchanged_witness :
    validRegistrar sampleHost 4096 ∧
    ((∃ outcome : CallOutcome,
      SpeechToTextWindowsStubRegisterWithRegistrar 4096 sampleHost = Except.ok outcome ∧
      outcome.ret = () ∧ outcome.effects = [] ∧ outcome.host = sampleHost ∧
      List.lookup 4096 outcome.host.registrars = List.lookup 4096 sampleHost.registrars ∧
      outcome.host.retained = sampleHost.retained) ∧
    (∀ obj : RegistrarObject, ∃ outcome : CallOutcome,
      SpeechToTextWindowsStubRegisterWithRegistrar 4096 (sampleHost.withRegistrar 4096 obj)
        = Except.ok outcome ∧
      outcome.effects = [] ∧ outcome.host = sampleHost.withRegistrar 4096 obj)) :=
  ⟨⟨by decide, by decide⟩,
    register_leaves_host_unchanged 4096 sampleHost ⟨by decide, by decide⟩⟩

/-- C2: for every valid (non-null, live) registrar handle the registration
call never fails: it returns normally, not with an exception or an abort. -/
theorem register_never_fails (registrar : FlutterDesktopPluginRegistrarRef)
    (host : HostState) (hvalid : validRegistrar host registrar) :
    (∃ outcome : CallOutcome,
      SpeechToTextWindowsStubRegisterWithRegistrar registrar host = Except.ok outcome) ∧
    ∀ failure : CallFailure,
      SpeechToTextWindowsStubRegisterWithRegistrar registrar host ≠ Except.error failure := by
  refine ⟨⟨_, rfl⟩, ?_⟩
  intro failure h
  simp [SpeechToTextWindowsStubRegisterWithRegistrar] at h

theorem register_never_fails_witness :
    validRegistrar sampleHost 4096 ∧
    ((∃ outcome : CallOutcome,
      SpeechToTextWindowsStubRegisterWithRegistrar 4096 sampleHost = Except.ok outcome) ∧
    ∀ failure : CallFailure,
      SpeechToTextWindowsStubRegisterWithRegistrar 4096 sampleHost ≠ Except.error failure) :=
  ⟨⟨by decide, by decide⟩, register_never_fails 4096 sampleHost ⟨by decide, by decide⟩⟩

/-- C3: the registration call is idempotent: for every valid registrar
handle and every host state, two calls in succession leave the state one
call leaves, and both calls have the same, empty, effect. -/
theorem register_idempotent (registrar : FlutterDesktopPluginRegistrarRef)
    (host : HostState) (hvalid : validRegistrar host registrar) :
    ∃ once first second : CallOutcome,
      SpeechToTextWindowsStubRegisterWithRegistrar registrar host = Except.ok once ∧
      registerTwice registrar host = Except.ok (first, second) ∧
      validRegistrar first.host registrar ∧
      second.host = once.host ∧
      first.effects = [] ∧ second.effects = [] ∧
      first.effects ++ second.effects = once.effects := by
  exact ⟨_, _, _, rfl, rfl, hvalid, rfl, rfl, rfl, rfl⟩

theorem register_idempotent_witness :
    validRegistrar sampleHost 4096 ∧
    ∃ once first second : CallOutcome,
      SpeechToTextWindowsStubRegisterWithRegistrar 4096 sampleHost = Except.ok once ∧
      registerTwice 4096 sampleHost = Except.ok (first, second) ∧
      validRegistrar first.host 4096 ∧
      second.host = once.host ∧
      first.effects = [] ∧ second.effects = [] ∧
      first.effects ++ second.effects = once.effects :=
  ⟨⟨by decide, by decide⟩, register_idempotent 4096 sampleHost ⟨by decide, by decide⟩⟩

/-! ## Visibility of the declaration -/

theorem visibilityAttr_eq_export (impl : Bool) :
    visibilityAttr impl = dllexportAttr ↔ impl = true := by
  cases impl <;> simp [visibilityAttr, dllexportAttr, dllimportAttr]

theorem visibilityAttr_eq_import (impl : Bool) :
    visibilityAttr impl = dllimportAttr ↔ impl = false := by
  cases impl <;> simp [visibilityAttr, dllexportAttr, dllimportAttr]

theorem visibilityAttr_idents (impl : Bool) :
    ∀ t ∈ visibilityAttr impl, ∀ k, t = Token.ident k → k ∈ attrIdents := by
  cases impl <;> simp [visibilityAttr, dllexportAttr, dllimportAttr, attrIdents]

/-- A name that the configuration does not define and that the included
file keeps is not defined when the declaration is reached. -/
theorem undefined_at_declaration (inc : IncludeResolver) (cfg : MacroTable) (b : List Token)
    (n : String) (hn : macroLookup cfg n = none) (hk : IncludeKeeps inc n)
    (h1 : n ≠ GUARD) (h2 : n ≠ FLUTTER_PLUGIN_EXPORT) :
    macroLookup (macroDefine (afterIncludeLine inc cfg).macros FLUTTER_PLUGIN_EXPORT b) n
      = none := by
  rw [macroLookup_define_ne _ _ _ _ h2, afterIncludeLine, hk,
    macroLookup_define_ne _ _ _ _ h1, hn]

/-- A flag the included file keeps is defined at the conditionals of the
header exactly when the configuration defines it. -/
theorem flag_at_conditional (inc : IncludeResolver) (cfg : MacroTable) (n : String)
    (hk : IncludeKeeps inc n) (h1 : n ≠ GUARD) :
    isDefined (afterIncludeLine inc cfg).macros n = isDefined cfg n := by
  unfold isDefined afterIncludeLine
  rw [hk, macroLookup_define_ne _ _ _ _ h1]

/-- C4, amended: for every build configuration in which the include guard
is not defined and none of `__declspec`, `dllexport`, `dllimport` is a
macro, the included file leaving these and `FLUTTER_PLUGIN_IMPL` as they
are, the header defines `FLUTTER_PLUGIN_EXPORT` exactly once, as
`__declspec(dllexport)` if and only if `FLUTTER_PLUGIN_IMPL` is defined and
as `__declspec(dllimport)` otherwise, and the declaration it emits starts
with that one attribute. -/
theorem export_follows_impl_flag (inc : IncludeResolver) (cfg : MacroTable)
    (hguard : isDefined cfg GUARD = false)
    (hcfg : ∀ n ∈ attrIdents, macroLookup cfg n = none)
    (hinc : ∀ n ∈ FLUTTER_PLUGIN_IMPL :: attrIdents, IncludeKeeps inc n) :
    ExportFollowsImplFlag inc cfg := by
  have himpl : isDefined (afterIncludeLine inc cfg).macros FLUTTER_PLUGIN_IMPL
      = isDefined cfg FLUTTER_PLUGIN_IMPL :=
    flag_at_conditional inc cfg _ (hinc _ (List.mem_cons_self _ _)) (by decide)
  have hne : ∀ n ∈ attrIdents, n ≠ GUARD ∧ n ≠ FLUTTER_PLUGIN_EXPORT := by decide
  have hattr : ∀ (b : List Token), ∀ n ∈ attrIdents,
      macroLookup (macroDefine (afterIncludeLine inc cfg).macros FLUTTER_PLUGIN_EXPORT b) n
        = none := fun b n hn =>
    undefined_at_declaration inc cfg b n (hcfg n hn) (hinc n (List.mem_cons_of_mem _ hn))
      (hne n hn).1 (hne n hn).2
  have hexp : expand (macroDefine (afterIncludeLine inc cfg).macros FLUTTER_PLUGIN_EXPORT
        (visibilityAttr (isDefined cfg FLUTTER_PLUGIN_IMPL))) [Token.ident FLUTTER_PLUGIN_EXPORT]
      = visibilityAttr (isDefined cfg FLUTTER_PLUGIN_IMPL) :=
    expand_flat_definition _ _ _ (macroLookup_define_self _ _ _)
      (fun t ht k hk => hattr _ k (visibilityAttr_idents _ t ht k hk))
  refine ⟨_, header_processed inc cfg hguard, ?_, ?_, ?_, ?_, ?_⟩
  · rw [himpl, macroLookup_define_self]
    simpa using visibilityAttr_eq_export (isDefined cfg FLUTTER_PLUGIN_IMPL)
  · rw [himpl, macroLookup_define_self]
    simpa using visibilityAttr_eq_import (isDefined cfg FLUTTER_PLUGIN_IMPL)
  · simp [GUARD, FLUTTER_PLUGIN_EXPORT]
  · simp only [himpl]
    exact hexp
  · simp only [himpl]
    have hfirst : expandTok (macroDefine (afterIncludeLine inc cfg).macros FLUTTER_PLUGIN_EXPORT
          (visibilityAttr (isDefined cfg FLUTTER_PLUGIN_IMPL)))
        ((macroDefine (afterIncludeLine inc cfg).macros FLUTTER_PLUGIN_EXPORT
          (visibilityAttr (isDefined cfg FLUTTER_PLUGIN_IMPL))).length + 1) []
        (Token.ident FLUTTER_PLUGIN_EXPORT)
        = visibilityAttr (isDefined cfg FLUTTER_PLUGIN_IMPL) := by
      simpa [expand] using hexp
    rw [isDefined_define_ne _ _ _ _ (by decide : CPLUSPLUS ≠ FLUTTER_PLUGIN_EXPORT),
      expand_cons, hfirst]
    simp only [List.append_assoc]

theorem registrarHeaderStandIn_keeps_impl_and_attr :
    ∀ n ∈ FLUTTER_PLUGIN_IMPL :: attrIdents, IncludeKeeps registrarHeaderStandIn n := by
  intro n hn
  apply registrarHeaderStandIn_keeps
  rintro rfl
  revert hn
  decide

theorem export_follows_impl_flag_witness :
    isDefined producerConfig GUARD = false ∧
    (∀ n ∈ attrIdents, macroLookup producerConfig n = none) ∧
    (∀ n ∈ FLUTTER_PLUGIN_IMPL :: attrIdents, IncludeKeeps registrarHeaderStandIn n) ∧
    ExportFollowsImplFlag registrarHeaderStandIn producerConfig :=
  ⟨by decide, by decide, registrarHeaderStandIn_keeps_impl_and_attr,
    export_follows_impl_flag registrarHeaderStandIn producerConfig (by decide) (by decide)
      registrarHeaderStandIn_keeps_impl_and_attr⟩

/-- C4 as stated fails. With the include guard already defined and
`FLUTTER_PLUGIN_IMPL` not defined, the header defines
`FLUTTER_PLUGIN_EXPORT` zero times and emits no declaration; and in a
producer configuration where `dllexport` is a macro for `dllimport`, the
emitted declaration carries `__declspec(dllimport)`. -/
theorem reinclusion_defines_no_visibility :
    (isDefined reincludedConfig FLUTTER_PLUGIN_IMPL = false ∧
      ppInclude registrarHeaderStandIn speech_to_text_windows_stub_h reincludedConfig
        = Except.ok { macros := reincludedConfig, out := [], own := [], defs := [] } ∧
      ¬ ExportFollowsImplFlag registrarHeaderStandIn reincludedConfig) ∧
    (isDefined aliasedAttrConfig FLUTTER_PLUGIN_IMPL = true ∧
      (∃ r : PPResult,
        ppInclude registrarHeaderStandIn speech_to_text_windows_stub_h aliasedAttrConfig
          = Except.ok r ∧ r.own = dllimportAttr ++ declarationTail) ∧
      ¬ ExportFollowsImplFlag registrarHeaderStandIn aliasedAttrConfig) := by
  refine ⟨⟨by decide, rfl, ?_⟩, by decide, ⟨_, rfl, by decide⟩, ?_⟩
  · rintro ⟨r, hr, -, -, hdefs, -⟩
    have h0 : ppInclude registrarHeaderStandIn speech_to_text_windows_stub_h reincludedConfig
        = Except.ok { macros := reincludedConfig, out := [], own := [], defs := [] } := rfl
    rw [h0] at hr
    cases hr
    simp at hdefs
  · rintro ⟨r, hr, -, -, -, hexp, -⟩
    have h0 : ∃ r0, ppInclude registrarHeaderStandIn speech_to_text_windows_stub_h
        aliasedAttrConfig = Except.ok r0 ∧
        expand r0.macros [Token.ident FLUTTER_PLUGIN_EXPORT] = dllimportAttr :=
      ⟨_, rfl, by decide⟩
    obtain ⟨r0, h1, h2⟩ := h0
    rw [h1] at hr
    cases hr
    rw [h2] at hexp
    revert hexp
    decide

/-! ## Linkage of the declaration -/

theorem textIdents_cover :
    (∀ t ∈ declarationTail, ∀ k, t = Token.ident k → k ∈ textIdents) ∧
    (∀ t ∈ linkageOpen, ∀ k, t = Token.ident k → k ∈ textIdents) ∧
    (∀ t ∈ linkageClose, ∀ k, t = Token.ident k → k ∈ textIdents) ∧
    (∀ n ∈ attrIdents, n ∈ textIdents) := by
  refine ⟨?_, ?_, ?_, by decide⟩ <;>
    simp [declarationTail, linkageOpen, linkageClose, textIdents]

/-- C5, amended: for every build configuration in which the include guard
is not defined and no identifier of the header's text lines is a macro,
the included file leaving these and `__cplusplus` as they are, the header
declares exactly one function, `SpeechToTextWindowsStubRegisterWithRegistrar`,
with C linkage: compiled as C++ the declaration lies inside one balanced
linkage block, compiled as C no token of a linkage block is emitted. -/
theorem declared_with_c_linkage (inc : IncludeResolver) (cfg : MacroTable)
    (hguard : isDefined cfg GUARD = false)
    (hcfg : ∀ n ∈ textIdents, macroLookup cfg n = none)
    (hinc : ∀ n ∈ CPLUSPLUS :: textIdents, IncludeKeeps inc n) :
    DeclaredWithCLinkage inc cfg := by
  have hcxx : isDefined (afterIncludeLine inc cfg).macros CPLUSPLUS = isDefined cfg CPLUSPLUS :=
    flag_at_conditional inc cfg _ (hinc _ (List.mem_cons_self _ _)) (by decide)
  have hne : ∀ n ∈ textIdents, n ≠ GUARD ∧ n ≠ FLUTTER_PLUGIN_EXPORT := by decide
  have hund : ∀ (b : List Token), ∀ n ∈ textIdents,
      macroLookup (macroDefine (afterIncludeLine inc cfg).macros FLUTTER_PLUGIN_EXPORT b) n
        = none := fun b n hn =>
    undefined_at_declaration inc cfg b n (hcfg n hn) (hinc n (List.mem_cons_of_mem _ hn))
      (hne n hn).1 (hne n hn).2
  obtain ⟨htail, hopen, hclose, hattr⟩ := textIdents_cover
  have hp := header_processed inc cfg hguard
  rw [hcxx] at hp
  generalize isDefined (afterIncludeLine inc cfg).macros FLUTTER_PLUGIN_IMPL = impl at hp
  have hfirst : expand (macroDefine (afterIncludeLine inc cfg).macros FLUTTER_PLUGIN_EXPORT
        (visibilityAttr impl)) [Token.ident FLUTTER_PLUGIN_EXPORT] = visibilityAttr impl :=
    expand_flat_definition _ _ _ (macroLookup_define_self _ _ _)
      (fun t ht k hk => hund _ k (hattr k (visibilityAttr_idents _ t ht k hk)))
  have hdecl : expand (macroDefine (afterIncludeLine inc cfg).macros FLUTTER_PLUGIN_EXPORT
        (visibilityAttr impl)) (Token.ident FLUTTER_PLUGIN_EXPORT :: declarationTail)
      = visibilityAttr impl ++ declarationTail := by
    have h1 := expand_no_macros (macroDefine (afterIncludeLine inc cfg).macros
      FLUTTER_PLUGIN_EXPORT (visibilityAttr impl)) declarationTail
      (fun t ht k hk => hund _ k (htail t ht k hk))
    rw [expand_cons, h1]
    have h2 : expandTok (macroDefine (afterIncludeLine inc cfg).macros FLUTTER_PLUGIN_EXPORT
          (visibilityAttr impl))
        ((macroDefine (afterIncludeLine inc cfg).macros FLUTTER_PLUGIN_EXPORT
          (visibilityAttr impl)).length + 1) [] (Token.ident FLUTTER_PLUGIN_EXPORT)
        = visibilityAttr impl := by
      simpa [expand] using hfirst
    rw [h2]
  rw [hdecl, expand_no_macros _ linkageOpen (fun t ht k hk => hund _ k (hopen t ht k hk)),
    expand_no_macros _ linkageClose (fun t ht k hk => hund _ k (hclose t ht k hk))] at hp
  refine ⟨_, hp, ?_, ?_, ?_, ?_⟩ <;> dsimp only
  · intro hc
    exact ⟨impl, by simp [hc]⟩
  · intro hc
    rw [hc]
    cases impl <;> decide
  · cases isDefined cfg CPLUSPLUS <;> cases impl <;> decide
  · cases isDefined cfg CPLUSPLUS <;> cases impl <;> decide

theorem registrarHeaderStandIn_keeps_text :
    ∀ n ∈ CPLUSPLUS :: textIdents, IncludeKeeps registrarHeaderStandIn n := by
  intro n hn
  apply registrarHeaderStandIn_keeps
  rintro rfl
  revert hn
  decide

theorem declared_with_c_linkage_witness :
    isDefined consumerConfig GUARD = false ∧
    (∀ n ∈ textIdents, macroLookup consumerConfig n = none) ∧
    (∀ n ∈ CPLUSPLUS :: textIdents, IncludeKeeps registrarHeaderStandIn n) ∧
    DeclaredWithCLinkage registrarHeaderStandIn consumerConfig :=
  ⟨by decide, by decide, registrarHeaderStandIn_keeps_text,
    declared_with_c_linkage registrarHeaderStandIn consumerConfig (by decide) (by decide)
      registrarHeaderStandIn_keeps_text⟩

/-- C5 as stated fails. Compiled as C++ with the include guard already
defined, the header emits nothing, so it declares no function; and in a
configuration where the function's name is a macro, the function declared
has another name. -/
theorem reinclusion_declares_no_function :
    (isDefined reincludedConfig CPLUSPLUS = true ∧
      (∃ r : PPResult,
        ppInclude registrarHeaderStandIn speech_to_text_windows_stub_h reincludedConfig
          = Except.ok r ∧ r.own = [] ∧
        declaredFunctions true 0 r.own = []) ∧
      ¬ DeclaredWithCLinkage registrarHeaderStandIn reincludedConfig) ∧
    ((∃ r : PPResult,
        ppInclude registrarHeaderStandIn speech_to_text_windows_stub_h renamedConfig
          = Except.ok r ∧
        declaredFunctions false 0 r.own = [("StubRegister", Linkage.c)]) ∧
      ¬ DeclaredWithCLinkage registrarHeaderStandIn renamedConfig) := by
  refine ⟨⟨by decide, ⟨_, rfl, rfl, rfl⟩, ?_⟩, ⟨_, rfl, by decide⟩, ?_⟩
  · rintro ⟨r, hr, -, -, -, hfun⟩
    have h0 : ppInclude registrarHeaderStandIn speech_to_text_windows_stub_h reincludedConfig
        = Except.ok { macros := reincludedConfig, out := [], own := [], defs := [] } := rfl
    rw [h0] at hr
    cases hr
    revert hfun
    decide
  · rintro ⟨r, hr, -, -, -, hfun⟩
    have h0 : ∃ r0, ppInclude registrarHeaderStandIn speech_to_text_windows_stub_h
        renamedConfig = Except.ok r0 ∧
        declaredFunctions (isDefined renamedConfig CPLUSPLUS) 0 r0.own
          = [("StubRegister", Linkage.c)] :=
      ⟨_, rfl, by decide⟩
    obtain ⟨r0, h1, h2⟩ := h0
    rw [h1] at hr
    cases hr
    rw [h2] at hfun
    revert hfun
    decide

/-! ## A second inclusion -/

theorem isDefined_editImpl_guard (m : MacroTable) (e : Option (List Token)) :
    isDefined (editImpl m e) GUARD = isDefined m GUARD := by
  cases e with
  | none => exact isDefined_undef_ne m _ _ (by decide)
  | some body => exact isDefined_define_ne m _ _ body (by decide)

theorem isDefined_edits_guard (edits : List (Option (List Token))) :
    ∀ m : MacroTable, isDefined (edits.foldl editImpl m) GUARD = isDefined m GUARD := by
  induction edits with
  | nil => intro m; rfl
  | cons e es ih =>
    intro m
    rw [List.foldl_cons, ih, isDefined_editImpl_guard]

/-- C6: including the header is idempotent within one translation unit.
From every macro state the first inclusion succeeds, and a second
inclusion, whether or not `FLUTTER_PLUGIN_IMPL` was defined or undefined
in between, emits no tokens, executes no `#define` and leaves the macro
state as it was, provided the file the header includes does not undefine
the include guard. -/
theorem second_inclusion_skipped (inc : IncludeResolver) (cfg : MacroTable)
    (edits : List (Option (List Token)))
    (hinc : ∀ m : MacroTable, isDefined m GUARD = true →
      isDefined (inc registrarHeaderPath m).macros GUARD = true) :
    ∃ first : PPResult,
      ppInclude inc speech_to_text_windows_stub_h cfg = Except.ok first ∧
      isDefined first.macros GUARD = true ∧
      ppInclude inc speech_to_text_windows_stub_h (edits.foldl editImpl first.macros)
        = Except.ok { macros := edits.foldl editImpl first.macros,
                      out := [], own := [], defs := [] } := by
  have hfirst : ∃ first : PPResult,
      ppInclude inc speech_to_text_windows_stub_h cfg = Except.ok first ∧
      isDefined first.macros GUARD = true := by
    cases hg : isDefined cfg GUARD with
    | true => exact ⟨_, header_skipped inc cfg hg, hg⟩
    | false =>
      refine ⟨_, header_processed inc cfg hg, ?_⟩
      rw [isDefined_define_ne _ _ _ _ (by decide : GUARD ≠ FLUTTER_PLUGIN_EXPORT)]
      exact hinc _ (isDefined_define_self cfg GUARD [])
  obtain ⟨first, h1, h2⟩ := hfirst
  refine ⟨first, h1, h2, header_skipped inc _ ?_⟩
  rw [isDefined_edits_guard, h2]

theorem registrarHeaderStandIn_keeps_guard :
    ∀ m : MacroTable, isDefined m GUARD = true →
      isDefined (registrarHeaderStandIn registrarHeaderPath m).macros GUARD = true := by
  intro m h
  have hk := registrarHeaderStandIn_keeps GUARD (by decide) registrarHeaderPath m
  unfold isDefined at h ⊢
  rw [hk]
  exact h

theorem second_inclusion_skipped_witness :
    (∀ m : MacroTable, isDefined m GUARD = true →
      isDefined (registrarHeaderStandIn registrarHeaderPath m).macros GUARD = true) ∧
    ∃ first : PPResult,
      ppInclude registrarHeaderStandIn speech_to_text_windows_stub_h consumerConfig
        = Except.ok first ∧
      isDefined first.macros GUARD = true ∧
      ppInclude registrarHeaderStandIn speech_to_text_windows_stub_h
          ([some [], none].foldl editImpl first.macros)
        = Except.ok { macros := [some [], none].foldl editImpl first.macros,
                      out := [], own := [], defs := [] } :=
  ⟨registrarHeaderStandIn_keeps_guard,
    second_inclusion_skipped registrarHeaderStandIn consumerConfig [some [], none]
      registrarHeaderStandIn_keeps_guard⟩

end SpeechToTextWindowsStub
